import Mathlib

/-!
Verification of the drilling-operations monitoring dashboard (`src/app.py`).

The script is a single pipeline: Loader (CSV → time-indexed table) →
Rule Evaluator (five independent anomaly predicates) → summary / report
composition, with an external text-generation call and an external binary
classifier as collaborators.  We embed the pipeline shallowly:

* numeric sensor cells are `Option ℚ` (`none` models a missing value, NaN);
* timestamps are `Nat` (seconds); the `pd.to_datetime` parse of the
  `YYYY/MM/DD` + `HH:MM:SS` columns is modelled as the already-parsed epoch
  value carried by each raw row;
* `Series.pct_change().abs()` is modelled including pandas' default pad
  fill, its NaN results (first row, missing predecessor, 0/0) and the
  infinite result of division by zero (`PctVal`);
* `rolling('10min')` is time-based, right-closed/left-open, per-row window
  ending at the current row; pandas (1.1 and later) accepts an index that is
  monotone in either direction — on a decreasing index the window mirrors to
  the other side of the current timestamp — and raises `ValueError` only on a
  mixed-order index, which the evaluator models by returning an error
  (`PipelineError.nonMonotonicIndex`);
* comparisons against NaN are `False` in pandas, hence the `opt*` helpers;
* the external chat-completion call and the classifier are parameters
  (`api`, `load`), with `Except`/`Option` results standing for exceptions.
-/

/-- One row of the loaded table: the timestamp index plus the eleven numeric
sensor columns kept by `usecols` (date/time columns are dropped after the
timestamp is built). `none` models a missing (NaN) cell. -/
structure SensorRecord where
  ts : Nat
  rop : Option ℚ
  plcRop : Option ℚ
  hookLoad : Option ℚ
  standpipe : Option ℚ
  pump1 : Option ℚ
  pump2 : Option ℚ
  vibeLateral : Option ℚ
  vibeAxial : Option ℚ
  adLimiting : Option ℚ
  wobReduce : Option ℚ
  rpmReduce : Option ℚ
deriving DecidableEq, Repr

/-- A wholly-missing record at a given timestamp (handy base point). -/
def blankRecord (t : Nat) : SensorRecord :=
  ⟨t, none, none, none, none, none, none, none, none, none, none, none⟩

/-- pandas comparison `x > c`: `False` when `x` is NaN. -/
def optGt (x : Option ℚ) (c : ℚ) : Bool :=
  match x with
  | some v => decide (c < v)
  | none => false

/-- pandas comparison `x < c`: `False` when `x` is NaN. -/
def optLt (x : Option ℚ) (c : ℚ) : Bool :=
  match x with
  | some v => decide (v < c)
  | none => false

/-- pandas comparison `x == c`: `False` when `x` is NaN. -/
def optEq (x : Option ℚ) (c : ℚ) : Bool :=
  match x with
  | some v => decide (v = c)
  | none => false

/-- Value of one entry of `df['ROP_change'] = ...pct_change().abs()`:
either NaN, `+inf` (division of a nonzero value by zero), or a finite
absolute relative change. -/
inductive PctVal where
  | nan : PctVal
  | inf : PctVal
  | fin (q : ℚ) : PctVal
deriving DecidableEq, Repr

/-- Forward fill (pandas `pad`), the default pre-step of `pct_change`:
each missing cell takes the last preceding observed value. -/
def ffillAux : Option ℚ → List (Option ℚ) → List (Option ℚ)
  | _, [] => []
  | prev, x :: xs =>
    let cur := if x.isSome then x else prev
    cur :: ffillAux cur xs

/-- Forward fill starting from no previous observation. -/
def ffill (l : List (Option ℚ)) : List (Option ℚ) := ffillAux none l

/-- Absolute value on ℚ, written so it evaluates by kernel reduction. -/
def ratAbs (q : ℚ) : ℚ := if q < 0 then -q else q

/-- `|b / a - 1|` with pandas semantics: NaN if either operand is missing
or both are zero, `+inf` if only the denominator is zero. -/
def pctStep : Option ℚ → Option ℚ → PctVal
  | some a, some b =>
    if a = 0 then (if b = 0 then PctVal.nan else PctVal.inf)
    else PctVal.fin (ratAbs (b / a - 1))
  | _, _ => PctVal.nan

/-- Absolute percent change of each element w.r.t. its predecessor in an
already-filled column. -/
def pctPairs : List (Option ℚ) → List PctVal
  | [] => []
  | [_] => []
  | a :: b :: rest => pctStep a b :: pctPairs (b :: rest)

/-- The derived column `df['ROP_change']`: absolute pad-filled percent
change of `Rate Of Penetration (ft_per_hr)`; the first row is NaN. -/
def ropChangeList (s : List SensorRecord) : List PctVal :=
  if s.isEmpty then [] else PctVal.nan :: pctPairs (ffill (s.map (·.rop)))

/-- pandas index growth sign: a rolling computation treats the index as
decreasing exactly when the last index value is below the first. -/
def tsDescending (ts : List Nat) : Bool :=
  decide ((ts.getLast?).getD 0 < ts.headD 0)

/-- The `rolling('10min')` window ending at row `i`: the `ROP_change`
values of the rows `j ≤ i` within 10 minutes of row `i`.  On a
non-decreasing index these are the rows with timestamp in
`(ts i - 600, ts i]`; on a decreasing index — which pandas 1.1 and later
accept — the window mirrors to `[ts i, ts i + 600)`. -/
def windowVals (s : List SensorRecord) (i : Nat) : List PctVal :=
  let ts := s.map (·.ts)
  let ti := ts.getD i 0
  let keep : Nat → Bool :=
    if tsDescending ts then fun tj => decide (tj < ti + 600)
    else fun tj => decide (ti < tj + 600)
  (((ts.zip (ropChangeList s)).take (i + 1)).filter
    (fun p => keep p.1)).map (·.2)

/-- The finite values of a window (NaNs are skipped by `mean`). -/
def finVals (l : List PctVal) : List ℚ :=
  l.filterMap fun v =>
    match v with
    | PctVal.fin q => some q
    | _ => none

/-- Whether a window contains an infinite value. -/
def hasInf (l : List PctVal) : Bool :=
  l.any fun v =>
    match v with
    | PctVal.inf => true
    | _ => false

/-- `mean(window) > 0.5` with pandas semantics: NaNs are skipped, a window
with no observed value yields NaN (so the comparison is `False`), a window
containing `+inf` has infinite mean (so the comparison is `True`). -/
def meanGtHalf (l : List PctVal) : Bool :=
  if hasInf l then true
  else if (finVals l).isEmpty then false
  else decide ((finVals l).length < 2 * (finVals l).sum)

/-- `df['ROP_change'].rolling('10min').mean().gt(0.5).any()` (assuming an
index monotone in one direction, which `rolling` requires). -/
def ropRollingGtHalf (s : List SensorRecord) : Bool :=
  (List.range s.length).any fun i => meanGtHalf (windowVals s i)

/-- Row predicate of the `hl_issue` rule: hook load above 60 klbs, ROP
below 1 ft/hr, and pump 1 stopped, all in the same row. -/
def hlIssue (r : SensorRecord) : Bool :=
  optGt r.hookLoad 60 && optLt r.rop 1 && optEq r.pump1 0

/-- Row predicate of the lateral-vibration rule. -/
def latIssue (r : SensorRecord) : Bool := optGt r.vibeLateral 25

/-- Row predicate of the AutoDriller-limiting rule. -/
def adlIssue (r : SensorRecord) : Bool := optGt r.adLimiting 0

/-- Row predicate of the vibration-mitigation rule. -/
def dasIssue (r : SensorRecord) : Bool :=
  optGt r.wobReduce 0 || optGt r.rpmReduce 0

/-- Alert string of the ROP-volatility rule. -/
def ropAlertMsg : String :=
  "Significant ROP fluctuation (>50% in 10 min) detected."

/-- Alert string of the stuck-pipe rule. -/
def stuckAlertMsg : String :=
  "High hook load while pumps are off and ROP is near zero. Possible stuck pipe."

/-- Alert string of the lateral-vibration rule. -/
def latAlertMsg : String :=
  "Excessive lateral vibration detected (>25g)."

/-- Alert string of the AutoDriller rule. -/
def adlAlertMsg : String :=
  "AutoDriller limiting detected."

/-- Alert string of the vibration-mitigation rule. -/
def dasAlertMsg : String :=
  "DAS vibration mitigation active."

/-- Errors that abort a pipeline run. -/
inductive PipelineError where
  | missingColumns (cols : List String) : PipelineError
  | nonMonotonicIndex : PipelineError
deriving DecidableEq, Repr

/-- Non-decreasing list of timestamps. -/
def nonDecr : List Nat → Bool
  | [] => true
  | [_] => true
  | a :: b :: rest => decide (a ≤ b) && nonDecr (b :: rest)

/-- Non-increasing list of timestamps. -/
def nonIncr : List Nat → Bool
  | [] => true
  | [_] => true
  | a :: b :: rest => decide (b ≤ a) && nonIncr (b :: rest)

/-- The index precondition pandas (1.1 and later, GH 32385) enforces for a
time-based rolling window: the index must be monotone in one direction,
non-decreasing or non-increasing; only a mixed-order index raises
`ValueError`. -/
def monoTs (ts : List Nat) : Bool := nonDecr ts || nonIncr ts

/-- The rule battery of the alerts tab: the five independent predicates,
each contributing at most one alert string, in source order.  `rolling`
raises `ValueError` on a mixed-order index, so the battery as a whole
errors out on such a series before producing any alert. -/
def alertsOf (s : List SensorRecord) : List String :=
  (if ropRollingGtHalf s then [ropAlertMsg] else []) ++
  (if s.any hlIssue then [stuckAlertMsg] else []) ++
  (if s.any latIssue then [latAlertMsg] else []) ++
  (if s.any adlIssue then [adlAlertMsg] else []) ++
  (if s.any dasIssue then [dasAlertMsg] else [])

/-- The alerts-tab computation as a whole: `rolling` raises `ValueError`
on a mixed-order index (pandas 1.1 and later accept both monotone
directions), so the battery errors out on such a series before producing
any alert; otherwise it returns `alertsOf`. -/
def evalRules (s : List SensorRecord) : Except PipelineError (List String) :=
  if monoTs (s.map (·.ts)) then Except.ok (alertsOf s)
  else Except.error PipelineError.nonMonotonicIndex

/-- The `usecols` list passed to `pd.read_csv`: the exact columns the
loader requires.  `read_csv` raises `ValueError`, naming every absent
column, when the file lacks some of them. -/
def usecols : List String :=
  ["YYYY/MM/DD", "HH:MM:SS",
   "Rate Of Penetration (ft_per_hr)", "PLC ROP (ft_per_hr)",
   "Hook Load (klbs)", "Standpipe Pressure (psi)",
   "Pump 1 strokes/min (SPM)", "Pump 2 strokes/min (SPM)",
   "DAS Vibe Lateral Max (g_force)", "DAS Vibe Axial Max (g_force)",
   "AutoDriller Limiting (unitless)",
   "DAS Vibe WOB Reduce (percent)", "DAS Vibe RPM Reduce (percent)"]

/-- A raw uploaded CSV row: the epoch value of its parsed
`YYYY/MM/DD HH:MM:SS` timestamp, and the numeric cells keyed by column
name (`none` inside the association models an unparsable/empty cell). -/
structure RawRow where
  ts : Nat
  cells : List (String × Option ℚ)
deriving DecidableEq, Repr

/-- A raw uploaded CSV: its header and rows. -/
structure RawCsv where
  header : List String
  rows : List RawRow
deriving DecidableEq, Repr

/-- Look up a named numeric cell in a raw row; absent means NaN. -/
def getCell (r : RawRow) (c : String) : Option ℚ :=
  (r.cells.lookup c).join

/-- The columns of `usecols` absent from an uploaded file's header. -/
def missingCols (header : List String) : List String :=
  usecols.filter fun c => !header.contains c

/-- The Loader: `pd.read_csv(..., usecols=...)` followed by timestamp
construction, indexing, and dropping of the raw date/time columns.  Fails,
naming the absent columns, when a required column is missing; otherwise
produces the time-indexed sensor table. -/
def loadSeries (csv : RawCsv) : Except PipelineError (List SensorRecord) :=
  if (missingCols csv.header).isEmpty then
    Except.ok (csv.rows.map fun r =>
      { ts := r.ts
        rop := getCell r "Rate Of Penetration (ft_per_hr)"
        plcRop := getCell r "PLC ROP (ft_per_hr)"
        hookLoad := getCell r "Hook Load (klbs)"
        standpipe := getCell r "Standpipe Pressure (psi)"
        pump1 := getCell r "Pump 1 strokes/min (SPM)"
        pump2 := getCell r "Pump 2 strokes/min (SPM)"
        vibeLateral := getCell r "DAS Vibe Lateral Max (g_force)"
        vibeAxial := getCell r "DAS Vibe Axial Max (g_force)"
        adLimiting := getCell r "AutoDriller Limiting (unitless)"
        wobReduce := getCell r "DAS Vibe WOB Reduce (percent)"
        rpmReduce := getCell r "DAS Vibe RPM Reduce (percent)" })
  else Except.error (PipelineError.missingColumns (missingCols csv.header))

/-- The fixed expert-recommendation list shown in the alerts tab and fed to
both the summary and the PDF report. -/
def recommendations : List String :=
  ["Check mud properties for signs of cuttings buildup or influx.",
   "Consider circulating bottoms-up if ROP drops are persistent.",
   "Inspect for stuck pipe conditions if hook load rises during no-ROP periods.",
   "Tune RPM and WOB if vibration levels exceed 25g.",
   "Monitor shaker screen loading if flow and ROP fluctuate rapidly."]

/-- The canned narrative returned without any external call. -/
def stableMsg : String :=
  "No anomalies detected during this session. Operations appear stable."

/-- The f-string prompt sent to the chat-completion service. -/
def buildPrompt (alerts recs : List String) : String :=
  "\n    Based on the following drilling anomalies and expert recommendations, provide a concise summary suitable for rig supervisors and mud engineers:\n\n    Alerts:\n    "
    ++ String.intercalate "\n" (alerts.map (fun a => "- " ++ a))
    ++ "\n\n    Recommendations:\n    "
    ++ String.intercalate "\n" (recs.map (fun r => "- " ++ r))
    ++ "\n    "

/-- Python's `str.strip()`: drop leading and trailing whitespace. -/
def pyStrip (s : String) : String :=
  ⟨((s.data.dropWhile Char.isWhitespace).reverse.dropWhile
      Char.isWhitespace).reverse⟩

/-- `generate_summary`.  The external chat-completion call is the parameter
`api` (its `Except.error` case models a raised exception).  The returned
`Bool` records whether the external service was invoked: the early return
for `not alerts and not recommendations` makes no call. -/
def generate_summary (api : String → Except String String)
    (alerts recs : List String) : String × Bool :=
  if alerts.isEmpty && recs.isEmpty then (stableMsg, false)
  else
    match api (buildPrompt alerts recs) with
    | Except.ok content => (pyStrip content, true)
    | Except.error e => ("⚠️ Error generating summary: " ++ e, true)

/-- Result of the ML tab: the (possibly `dropna`-reduced) table, one flag
per surviving row, and whether the warning fallback fired. -/
structure MLOutcome where
  rows : List (SensorRecord × ℤ)
  warned : Bool
deriving DecidableEq, Repr

/-- `df.dropna(subset=['PLC ROP (ft_per_hr)', 'DAS Vibe Lateral Max (g_force)'])`. -/
def dropnaFeatures (s : List SensorRecord) : List SensorRecord :=
  s.filter fun r => r.plcRop.isSome && r.vibeLateral.isSome

/-- The two-feature matrix `X` handed to `model.predict`. -/
def featureMatrix (s : List SensorRecord) : List (ℚ × ℚ) :=
  s.map fun r => (r.plcRop.getD 0, r.vibeLateral.getD 0)

/-- The ML tab's `try/except`.  `load = none` models `joblib.load` raising;
`predict X = none` models `model.predict` raising; a predict result whose
length differs from the frame models the column-assignment raising.  Any
of these lands in the `except` branch: a warning is surfaced and the flag
column of the current frame is set to the constant 0.  Note `df` is
rebound by `dropna` before prediction, so a prediction-time failure leaves
the reduced frame in place while a load failure keeps the full one. -/
def mlStep (load : Option (List (ℚ × ℚ) → Option (List ℤ)))
    (s : List SensorRecord) : MLOutcome :=
  match load with
  | none => ⟨s.map (fun r => (r, 0)), true⟩
  | some predict =>
    let s2 := dropnaFeatures s
    match predict (featureMatrix s2) with
    | none => ⟨s2.map (fun r => (r, 0)), true⟩
    | some flags =>
      if flags.length = s2.length then ⟨s2.zip flags, false⟩
      else ⟨s2.map (fun r => (r, 0)), true⟩

/-- Everything a successful run leaves behind: the loaded series, the
alert list, the narrative summary (and whether the external service was
invoked for it), the ML outcome, the post-ML frame serialized by the
"Download Cleaned CSV" button with derived columns discarded again, and
the optional PDF report (alerts and recommendations sections). -/
structure PipelineOutput where
  loaded : List SensorRecord
  alerts : List String
  summary : String
  externalCalled : Bool
  ml : MLOutcome
  cleaned : List SensorRecord
  pdf : Option (List String × List String)
deriving DecidableEq, Repr

/-- One synchronous run of the dashboard on an uploaded file: load,
evaluate the rule battery, compose the summary, run the ML tab (which
rebinds `df`), then export the cleaned CSV and, only when at least one
alert fired, the PDF report. -/
def runPipeline (api : String → Except String String)
    (load : Option (List (ℚ × ℚ) → Option (List ℤ)))
    (csv : RawCsv) : Except PipelineError PipelineOutput :=
  match loadSeries csv with
  | Except.error e => Except.error e
  | Except.ok s =>
    match evalRules s with
    | Except.error e => Except.error e
    | Except.ok alerts =>
      let sm := generate_summary api alerts recommendations
      let ml := mlStep load s
      Except.ok
        { loaded := s
          alerts := alerts
          summary := sm.1
          externalCalled := sm.2
          ml := ml
          cleaned := ml.rows.map (·.1)
          pdf := if alerts.isEmpty then none
                 else some (alerts, recommendations) }

/-- A stub chat-completion service that always answers. -/
def apiOk : String → Except String String :=
  fun _ => Except.ok "Summary text."

/-- A stub classifier that flags every presented row with 0. -/
def mlZero : Option (List (ℚ × ℚ) → Option (List ℤ)) :=
  some (fun x => some (x.map fun _ => 0))

/-- First row of a volatility fixture: the ROP jumps from 0 to 3 within
the 10-minute window, an infinite percent-change, so the rolling mean
exceeds 0.5. -/
def volRow0 : SensorRecord := { blankRecord 0 with rop := some 0 }

/-- Second row of the volatility fixture. -/
def volRow1 : SensorRecord := { blankRecord 100 with rop := some 3 }

/-- A row matching all three stuck-pipe conditions. -/
def stuckRow : SensorRecord :=
  { blankRecord 0 with hookLoad := some 70, rop := some 0, pump1 := some 0 }

/-- An upload with the full header and no data rows. -/
def csvEmpty : RawCsv := ⟨usecols, []⟩

/-- The pipeline output on `csvEmpty` with `apiOk` and a failing
classifier load. -/
def outEmpty : PipelineOutput :=
  { loaded := []
    alerts := []
    summary := "Summary text."
    externalCalled := true
    ml := ⟨[], true⟩
    cleaned := []
    pdf := none }

/-- A raw row carrying both classifier features. -/
def rowFull : RawRow :=
  ⟨0, [("PLC ROP (ft_per_hr)", some 5), ("DAS Vibe Lateral Max (g_force)", some 1)]⟩

/-- A raw row whose `PLC ROP (ft_per_hr)` cell is missing. -/
def rowNoPlc : RawRow :=
  ⟨600, [("DAS Vibe Lateral Max (g_force)", some 1)]⟩

/-- An upload whose second row lacks a classifier feature. -/
def csvNanRow : RawCsv := ⟨usecols, [rowFull, rowNoPlc]⟩

/-- An upload lacking the hook-load column. -/
def csvNoHookLoad : RawCsv := ⟨["YYYY/MM/DD"], []⟩

/-- The record the Loader produces from `rowFull`. -/
def recFull : SensorRecord :=
  { blankRecord 0 with plcRop := some 5, vibeLateral := some 1 }

/-- The record the Loader produces from `rowNoPlc`. -/
def recNoPlc : SensorRecord :=
  { blankRecord 600 with vibeLateral := some 1 }

/-- The pipeline output on `csvNanRow` with `apiOk` and `mlZero`: the
`dropna` of the ML tab discards the feature-missing second row before the
cleaned CSV is exported. -/
def outNan : PipelineOutput :=
  { loaded := [recFull, recNoPlc]
    alerts := []
    summary := "Summary text."
    externalCalled := true
    ml := ⟨[(recFull, 0)], false⟩
    cleaned := [recFull]
    pdf := none }

deriving instance DecidableEq for Except

/-! ### Helper lemmas -/

theorem evalRules_ok {s : List SensorRecord} {as : List String}
    (h : evalRules s = Except.ok as) :
    monoTs (s.map (·.ts)) = true ∧ as = alertsOf s := by
  unfold evalRules at h
  by_cases hm : monoTs (s.map (·.ts)) = true
  · rw [if_pos hm] at h
    exact ⟨hm, (Except.ok.inj h).symm⟩
  · rw [if_neg hm] at h
    exact Except.noConfusion h

theorem mem_cond_singleton {b : Bool} {m m' : String} :
    m ∈ (if b = true then [m'] else ([] : List String)) ↔ b = true ∧ m = m' := by
  cases b <;> simp

theorem mem_alertsOf {s : List SensorRecord} {m : String} :
    m ∈ alertsOf s ↔
      (ropRollingGtHalf s = true ∧ m = ropAlertMsg) ∨
      (s.any hlIssue = true ∧ m = stuckAlertMsg) ∨
      (s.any latIssue = true ∧ m = latAlertMsg) ∨
      (s.any adlIssue = true ∧ m = adlAlertMsg) ∨
      (s.any dasIssue = true ∧ m = dasAlertMsg) := by
  simp only [alertsOf, List.mem_append, mem_cond_singleton]
  tauto

theorem rop_mem_alertsOf {s : List SensorRecord} :
    ropAlertMsg ∈ alertsOf s ↔ ropRollingGtHalf s = true := by
  constructor
  · intro h
    rcases mem_alertsOf.mp h with ⟨h1, _⟩ | ⟨_, he⟩ | ⟨_, he⟩ | ⟨_, he⟩ | ⟨_, he⟩
    · exact h1
    all_goals exact absurd he (by decide)
  · intro h
    exact mem_alertsOf.mpr (Or.inl ⟨h, rfl⟩)

theorem stuck_mem_alertsOf {s : List SensorRecord} :
    stuckAlertMsg ∈ alertsOf s ↔ s.any hlIssue = true := by
  constructor
  · intro h
    rcases mem_alertsOf.mp h with ⟨_, he⟩ | ⟨h1, _⟩ | ⟨_, he⟩ | ⟨_, he⟩ | ⟨_, he⟩
    · exact absurd he (by decide)
    · exact h1
    all_goals exact absurd he (by decide)
  · intro h
    exact mem_alertsOf.mpr (Or.inr (Or.inl ⟨h, rfl⟩))

theorem lat_mem_alertsOf {s : List SensorRecord} :
    latAlertMsg ∈ alertsOf s ↔ s.any latIssue = true := by
  constructor
  · intro h
    rcases mem_alertsOf.mp h with ⟨_, he⟩ | ⟨_, he⟩ | ⟨h1, _⟩ | ⟨_, he⟩ | ⟨_, he⟩
    · exact absurd he (by decide)
    · exact absurd he (by decide)
    · exact h1
    all_goals exact absurd he (by decide)
  · intro h
    exact mem_alertsOf.mpr (Or.inr (Or.inr (Or.inl ⟨h, rfl⟩)))

theorem adl_mem_alertsOf {s : List SensorRecord} :
    adlAlertMsg ∈ alertsOf s ↔ s.any adlIssue = true := by
  constructor
  · intro h
    rcases mem_alertsOf.mp h with ⟨_, he⟩ | ⟨_, he⟩ | ⟨_, he⟩ | ⟨h1, _⟩ | ⟨_, he⟩
    · exact absurd he (by decide)
    · exact absurd he (by decide)
    · exact absurd he (by decide)
    · exact h1
    · exact absurd he (by decide)
  · intro h
    exact mem_alertsOf.mpr (Or.inr (Or.inr (Or.inr (Or.inl ⟨h, rfl⟩))))

theorem das_mem_alertsOf {s : List SensorRecord} :
    dasAlertMsg ∈ alertsOf s ↔ s.any dasIssue = true := by
  constructor
  · intro h
    rcases mem_alertsOf.mp h with ⟨_, he⟩ | ⟨_, he⟩ | ⟨_, he⟩ | ⟨_, he⟩ | ⟨h1, _⟩
    · exact absurd he (by decide)
    · exact absurd he (by decide)
    · exact absurd he (by decide)
    · exact absurd he (by decide)
    · exact h1
  · intro h
    exact mem_alertsOf.mpr (Or.inr (Or.inr (Or.inr (Or.inr ⟨h, rfl⟩))))

theorem hlIssue_iff {r : SensorRecord} :
    hlIssue r = true ↔
      ∃ hl p q, r.hookLoad = some hl ∧ r.rop = some p ∧ r.pump1 = some q ∧
        60 < hl ∧ p < 1 ∧ q = 0 := by
  cases hH : r.hookLoad <;> cases hR : r.rop <;> cases hP : r.pump1 <;>
    simp [hlIssue, optGt, optLt, optEq, hH, hR, hP, and_assoc]

theorem perm_any {s t : List SensorRecord} (hp : s.Perm t)
    (p : SensorRecord → Bool) : s.any p = t.any p := by
  rw [Bool.eq_iff_iff, List.any_eq_true, List.any_eq_true]
  constructor
  all_goals rintro ⟨x, hx, hpx⟩
  · exact ⟨x, hp.mem_iff.mp hx, hpx⟩
  · exact ⟨x, hp.mem_iff.mpr hx, hpx⟩

theorem ffillAux_none {l : List (Option ℚ)} (h : ∀ x ∈ l, x = none) :
    ∀ y ∈ ffillAux none l, y = none := by
  induction l with
  | nil => simp [ffillAux]
  | cons a as ih =>
    have ha := h a (by simp)
    subst ha
    intro y hy
    simp only [ffillAux, Option.isSome_none, Bool.false_eq_true, if_neg,
      List.mem_cons] at hy
    rcases hy with rfl | hy
    · rfl
    · exact ih (fun x hx => h x (List.mem_cons_of_mem _ hx)) y hy

theorem pctPairs_nan :
    ∀ l : List (Option ℚ), (∀ x ∈ l, x = none) →
      ∀ v ∈ pctPairs l, v = PctVal.nan
  | [], _ => by simp [pctPairs]
  | [_], _ => by simp [pctPairs]
  | a :: b :: rest, h => by
    intro v hv
    have ha := h a (by simp)
    have hb := h b (by simp)
    subst ha; subst hb
    simp only [pctPairs, List.mem_cons] at hv
    rcases hv with rfl | hv
    · rfl
    · exact pctPairs_nan (none :: rest)
        (fun x hx => h x (List.mem_cons_of_mem _ hx)) v hv

theorem ropChangeList_nan {s : List SensorRecord}
    (h : ∀ r ∈ s, r.rop = none) :
    ∀ v ∈ ropChangeList s, v = PctVal.nan := by
  cases s with
  | nil => simp [ropChangeList]
  | cons a as =>
    intro v hv
    have hrw : ropChangeList (a :: as)
        = PctVal.nan :: pctPairs (ffill ((a :: as).map (·.rop))) := rfl
    rw [hrw, List.mem_cons] at hv
    rcases hv with rfl | hv
    · rfl
    · refine pctPairs_nan _ ?_ v hv
      exact ffillAux_none (by
        intro x hx
        obtain ⟨r, hr, rfl⟩ := List.mem_map.mp hx
        exact h r hr)

theorem windowVals_sub {s : List SensorRecord} {i : Nat} {v : PctVal}
    (hv : v ∈ windowVals s i) : v ∈ ropChangeList s := by
  simp only [windowVals, List.mem_map] at hv
  obtain ⟨p, hp, rfl⟩ := hv
  have h1 := (List.mem_filter.mp hp).1
  have h2 := List.mem_of_mem_take h1
  exact (List.of_mem_zip h2).2

theorem meanGtHalf_nan {l : List PctVal} (h : ∀ v ∈ l, v = PctVal.nan) :
    meanGtHalf l = false := by
  have h1 : hasInf l = false := by
    rw [hasInf, List.any_eq_false]
    intro x hx
    rw [h x hx]
    simp
  have h2 : finVals l = [] := by
    rw [finVals, List.filterMap_eq_nil_iff]
    intro a ha
    rw [h a ha]
  rw [meanGtHalf, h1, h2]
  simp

theorem ropRolling_none {s : List SensorRecord}
    (h : ∀ r ∈ s, r.rop = none) : ropRollingGtHalf s = false := by
  rw [ropRollingGtHalf, List.any_eq_false]
  intro i _
  rw [meanGtHalf_nan (fun v hv => ropChangeList_nan h v (windowVals_sub hv))]
  simp

theorem runPipeline_ok {api : String → Except String String}
    {load : Option (List (ℚ × ℚ) → Option (List ℤ))} {csv : RawCsv}
    {out : PipelineOutput} (h : runPipeline api load csv = Except.ok out) :
    loadSeries csv = Except.ok out.loaded ∧
    evalRules out.loaded = Except.ok out.alerts ∧
    out.externalCalled = (generate_summary api out.alerts recommendations).2 ∧
    out.summary = (generate_summary api out.alerts recommendations).1 ∧
    out.ml = mlStep load out.loaded ∧
    out.cleaned = (mlStep load out.loaded).rows.map (·.1) ∧
    out.pdf = (if out.alerts.isEmpty then none
               else some (out.alerts, recommendations)) := by
  rw [runPipeline] at h
  cases hls : loadSeries csv with
  | error e => rw [hls] at h; exact Except.noConfusion h
  | ok s =>
    rw [hls] at h
    dsimp only at h
    cases her : evalRules s with
    | error e => rw [her] at h; exact Except.noConfusion h
    | ok alerts =>
      rw [her] at h
      dsimp only at h
      obtain rfl := Except.ok.inj h
      exact ⟨rfl, her, rfl, rfl, rfl, rfl, rfl⟩

theorem map_fst_pair_zero (l : List SensorRecord) :
    List.map (fun x => x.1) (l.map fun r => (r, (0 : ℤ))) = l := by
  induction l with
  | nil => rfl
  | cons a t ih =>
    simp only [List.map_cons]
    rw [ih]

theorem mlStep_rows_fst (load : Option (List (ℚ × ℚ) → Option (List ℤ)))
    (s : List SensorRecord) :
    (mlStep load s).rows.map (·.1) = s ∨
    (mlStep load s).rows.map (·.1) = dropnaFeatures s := by
  rcases load with _ | p
  · left
    have hr : (mlStep none s).rows = s.map (fun r => (r, (0 : ℤ))) := rfl
    rw [hr, map_fst_pair_zero]
  · cases hpred : p (featureMatrix (dropnaFeatures s)) with
    | none =>
      right
      have hr : (mlStep (some p) s).rows
          = (dropnaFeatures s).map (fun r => (r, (0 : ℤ))) := by
        simp [mlStep, hpred]
      rw [hr, map_fst_pair_zero]
    | some flags =>
      by_cases hlen : flags.length = (dropnaFeatures s).length
      · right
        have hms : (mlStep (some p) s).rows = (dropnaFeatures s).zip flags := by
          simp [mlStep, hpred, hlen]
        rw [hms]
        exact List.map_fst_zip (dropnaFeatures s) flags (le_of_eq hlen.symm)
      · right
        have hr : (mlStep (some p) s).rows
            = (dropnaFeatures s).map (fun r => (r, (0 : ℤ))) := by
          simp [mlStep, hpred, hlen]
        rw [hr, map_fst_pair_zero]

theorem dropnaFeatures_eq_self {s : List SensorRecord}
    (hall : ∀ r ∈ s, r.plcRop.isSome ∧ r.vibeLateral.isSome) :
    dropnaFeatures s = s := by
  rw [dropnaFeatures, List.filter_eq_self]
  intro r hr
  obtain ⟨h1, h2⟩ := hall r hr
  rw [h1, h2]
  rfl

/-! ### Claim theorems -/

/-- C1: for every loaded series on which the rule battery returns, the
ROP-volatility alert is in the returned alert set if and only if the
10-minute time-based rolling mean of the absolute percent-change of
`Rate Of Penetration (ft_per_hr)` between consecutive samples exceeds 0.5
at some point in the series. -/
theorem rop_volatility_alert_iff (s : List SensorRecord) (as : List String)
    (h : evalRules s = Except.ok as) :
    ropAlertMsg ∈ as ↔
      ∃ i, i < s.length ∧ meanGtHalf (windowVals s i) = true := by
  obtain ⟨-, rfl⟩ := evalRules_ok h
  rw [rop_mem_alertsOf, ropRollingGtHalf, List.any_eq_true]
  simp [List.mem_range]

/-- Witness for C1: a two-row series whose ROP doubles within the window
triggers exactly the volatility alert. -/
theorem rop_volatility_alert_iff_witness :
    ropAlertMsg ∈ [ropAlertMsg] ↔
      ∃ i, i < ([volRow0, volRow1] : List SensorRecord).length ∧
        meanGtHalf (windowVals [volRow0, volRow1] i) = true :=
  rop_volatility_alert_iff [volRow0, volRow1] [ropAlertMsg] (by rfl)

/-- C2: the stuck-pipe alert is present iff some row simultaneously has
hook load above 60 klbs, penetration rate below 1 ft/hr, and pump 1 at
0 SPM, regardless of the other rows. -/
theorem stuck_pipe_alert_iff (s : List SensorRecord) (as : List String)
    (h : evalRules s = Except.ok as) :
    stuckAlertMsg ∈ as ↔
      ∃ r ∈ s, ∃ hl p q, r.hookLoad = some hl ∧ r.rop = some p ∧
        r.pump1 = some q ∧ 60 < hl ∧ p < 1 ∧ q = 0 := by
  obtain ⟨-, rfl⟩ := evalRules_ok h
  rw [stuck_mem_alertsOf, List.any_eq_true]
  constructor
  · rintro ⟨r, hr, hp⟩
    exact ⟨r, hr, hlIssue_iff.mp hp⟩
  · rintro ⟨r, hr, hp⟩
    exact ⟨r, hr, hlIssue_iff.mpr hp⟩

/-- Witness for C2: a single row with hook load 70, ROP 0, and pump 1 at 0
yields exactly the stuck-pipe alert. -/
theorem stuck_pipe_alert_iff_witness :
    stuckAlertMsg ∈ [stuckAlertMsg] ↔
      ∃ r ∈ ([stuckRow] : List SensorRecord), ∃ hl p q,
        r.hookLoad = some hl ∧ r.rop = some p ∧ r.pump1 = some q ∧
        60 < hl ∧ p < 1 ∧ q = 0 :=
  stuck_pipe_alert_iff [stuckRow] [stuckAlertMsg] (by rfl)

/-- C5: `generate_summary` on empty alert and recommendation sets returns
exactly the canned stable-operations string and never invokes the external
text-generation service, whatever that service would answer. -/
theorem summary_empty_canned (api : String → Except String String) :
    generate_summary api [] [] = (stableMsg, false) := rfl

/-- C3 counterexample: on an upload whose second row lacks the
`PLC ROP (ft_per_hr)` feature and with a classifier that loads, the
exported cleaned CSV has lost a row, so reloading it cannot reproduce
every originally loaded row. -/
theorem cleaned_csv_roundtrip_counterexample :
    (runPipeline apiOk mlZero csvNanRow).map
        (fun o => (o.loaded.length, o.cleaned.length,
          decide (o.cleaned = o.loaded)))
      = Except.ok (2, 1, false) := by decide

/-- C3 amended: the cleaned CSV reproduces the loaded series up to the ML
tab's `dropna` on the two classifier features — it equals either the whole
loaded series or its restriction to rows with both features present, and
when every loaded row carries both features the round-trip is exact. -/
theorem cleaned_csv_roundtrip_amended (api : String → Except String String)
    (load : Option (List (ℚ × ℚ) → Option (List ℤ))) (csv : RawCsv)
    (out : PipelineOutput) (h : runPipeline api load csv = Except.ok out) :
    (out.cleaned = out.loaded ∨ out.cleaned = dropnaFeatures out.loaded) ∧
    ((∀ r ∈ out.loaded, r.plcRop.isSome ∧ r.vibeLateral.isSome) →
      out.cleaned = out.loaded) := by
  obtain ⟨-, -, -, -, -, hcl, -⟩ := runPipeline_ok h
  rw [hcl]
  refine ⟨mlStep_rows_fst load out.loaded, ?_⟩
  intro hall
  rcases mlStep_rows_fst load out.loaded with h1 | h1
  · exact h1
  · rw [h1, dropnaFeatures_eq_self hall]

/-- Witness for C3 amended, on the `csvNanRow` run. -/
theorem cleaned_csv_roundtrip_amended_witness :
    (outNan.cleaned = outNan.loaded ∨
      outNan.cleaned = dropnaFeatures outNan.loaded) ∧
    ((∀ r ∈ outNan.loaded, r.plcRop.isSome ∧ r.vibeLateral.isSome) →
      outNan.cleaned = outNan.loaded) :=
  cleaned_csv_roundtrip_amended apiOk mlZero csvNanRow outNan (by decide)

/-- C4 counterexample: a permutation that leaves the timestamps in mixed
order (neither non-decreasing nor non-increasing) makes the rule battery
raise, so evaluation on that permuted series does not complete with the
same alerts as on the sorted series. -/
theorem alert_order_independence_counterexample :
    evalRules [blankRecord 0, blankRecord 600, blankRecord 300]
        = Except.error PipelineError.nonMonotonicIndex ∧
    evalRules [blankRecord 0, blankRecord 300, blankRecord 600]
        = Except.ok [] ∧
    List.Perm [blankRecord 0, blankRecord 600, blankRecord 300]
      [blankRecord 0, blankRecord 300, blankRecord 600] :=
  ⟨by decide, by decide,
    List.Perm.cons (blankRecord 0)
      (List.Perm.swap (blankRecord 300) (blankRecord 600) [])⟩

/-- C4 amended: every rule except ROP volatility is row-order independent
(its row predicate triggers identically on any permutation), and the rule
battery completes exactly on the permutations whose timestamps are
monotone in one direction (non-decreasing or non-increasing, both accepted
by the rolling computation) — on a mixed-order permutation it raises
instead of evaluating any rule. -/
theorem alert_order_independence_amended (s t : List SensorRecord)
    (hp : s.Perm t) :
    (s.any hlIssue = t.any hlIssue ∧
     s.any latIssue = t.any latIssue ∧
     s.any adlIssue = t.any adlIssue ∧
     s.any dasIssue = t.any dasIssue) ∧
    (monoTs (t.map (·.ts)) = true →
      evalRules t = Except.ok (alertsOf t)) ∧
    (monoTs (t.map (·.ts)) = false →
      evalRules t = Except.error PipelineError.nonMonotonicIndex) := by
  refine ⟨⟨perm_any hp _, perm_any hp _, perm_any hp _, perm_any hp _⟩,
    ?_, ?_⟩
  · intro hm
    rw [evalRules, if_pos hm]
  · intro hm
    rw [evalRules, if_neg]
    rw [hm]
    exact Bool.false_ne_true

/-- Witness for C4 amended: the reversed two-row series (a decreasing
index, on which the battery completes). -/
theorem alert_order_independence_amended_witness :
    (([blankRecord 0, blankRecord 600] : List SensorRecord).any hlIssue
        = ([blankRecord 600, blankRecord 0] : List SensorRecord).any hlIssue ∧
     ([blankRecord 0, blankRecord 600] : List SensorRecord).any latIssue
        = ([blankRecord 600, blankRecord 0] : List SensorRecord).any latIssue ∧
     ([blankRecord 0, blankRecord 600] : List SensorRecord).any adlIssue
        = ([blankRecord 600, blankRecord 0] : List SensorRecord).any adlIssue ∧
     ([blankRecord 0, blankRecord 600] : List SensorRecord).any dasIssue
        = ([blankRecord 600, blankRecord 0] : List SensorRecord).any dasIssue) ∧
    (monoTs (([blankRecord 600, blankRecord 0] : List SensorRecord).map (·.ts))
        = true →
      evalRules [blankRecord 600, blankRecord 0]
        = Except.ok (alertsOf [blankRecord 600, blankRecord 0])) ∧
    (monoTs (([blankRecord 600, blankRecord 0] : List SensorRecord).map (·.ts))
        = false →
      evalRules [blankRecord 600, blankRecord 0]
        = Except.error PipelineError.nonMonotonicIndex) :=
  alert_order_independence_amended _ _
    (List.Perm.swap (blankRecord 600) (blankRecord 0) [])

/-- C6: if loading the classifier artifact fails, or inference on the
(feature-complete) frame fails, every row of the current frame gets ML
flag 0 and the warning fallback fires; the step still returns (processing
continues) and no partial flags are applied. -/
theorem ml_failure_all_zero (load : Option (List (ℚ × ℚ) → Option (List ℤ)))
    (s : List SensorRecord)
    (h : load = none ∨
      ∃ p, load = some p ∧ p (featureMatrix (dropnaFeatures s)) = none) :
    (mlStep load s).warned = true ∧
      ∀ x ∈ (mlStep load s).rows, x.2 = (0 : ℤ) := by
  rcases h with rfl | ⟨p, rfl, hp⟩
  · refine ⟨rfl, ?_⟩
    intro x hx
    obtain ⟨r, -, rfl⟩ := List.mem_map.mp hx
    rfl
  · have hr : mlStep (some p) s
        = ⟨(dropnaFeatures s).map (fun r => (r, 0)), true⟩ := by
      simp [mlStep, hp]
    rw [hr]
    refine ⟨rfl, ?_⟩
    intro x hx
    obtain ⟨r, -, rfl⟩ := List.mem_map.mp hx
    rfl

/-- Witness for C6: a failing classifier load over one row. -/
theorem ml_failure_all_zero_witness :
    (mlStep none [blankRecord 0]).warned = true ∧
      ∀ x ∈ (mlStep none [blankRecord 0]).rows, x.2 = (0 : ℤ) :=
  ml_failure_all_zero none [blankRecord 0] (Or.inl rfl)

/-- C7: an upload without the `Hook Load (klbs)` column fails in the
Loader with an error naming that column, and the whole pipeline run stops
with that error — no rule is evaluated and no output is produced. -/
theorem missing_column_halts (csv : RawCsv)
    (h : "Hook Load (klbs)" ∉ csv.header) :
    "Hook Load (klbs)" ∈ missingCols csv.header ∧
    loadSeries csv
      = Except.error (PipelineError.missingColumns (missingCols csv.header)) ∧
    ∀ api load, runPipeline api load csv
      = Except.error (PipelineError.missingColumns (missingCols csv.header)) := by
  have hmem : "Hook Load (klbs)" ∈ missingCols csv.header := by
    rw [missingCols, List.mem_filter]
    exact ⟨by decide, by simp [h]⟩
  have hne : (missingCols csv.header).isEmpty = false :=
    List.isEmpty_eq_false.mpr (List.ne_nil_of_mem hmem)
  have hload : loadSeries csv
      = Except.error (PipelineError.missingColumns (missingCols csv.header)) := by
    rw [loadSeries, hne]
    rfl
  refine ⟨hmem, hload, ?_⟩
  intro api load
  rw [runPipeline, hload]

/-- Witness for C7: an upload whose header has only the date column. -/
theorem missing_column_halts_witness :
    "Hook Load (klbs)" ∈ missingCols csvNoHookLoad.header ∧
    loadSeries csvNoHookLoad
      = Except.error
          (PipelineError.missingColumns (missingCols csvNoHookLoad.header)) ∧
    ∀ api load, runPipeline api load csvNoHookLoad
      = Except.error
          (PipelineError.missingColumns (missingCols csvNoHookLoad.header)) :=
  missing_column_halts csvNoHookLoad (by decide)

/-- C8: on a series whose timestamps are monotone in one direction
(non-decreasing or non-increasing — on anything else the battery raises
regardless of data), the battery returns, and any rule whose required
column is entirely missing contributes no alert, while the other rules
are unaffected (the battery still returns its usual alert list). -/
theorem all_missing_column_no_alert (s : List SensorRecord)
    (hm : monoTs (s.map (·.ts)) = true) :
    ∃ as, evalRules s = Except.ok as ∧
      ((∀ r ∈ s, r.rop = none) → ropAlertMsg ∉ as) ∧
      ((∀ r ∈ s, r.hookLoad = none) → stuckAlertMsg ∉ as) ∧
      ((∀ r ∈ s, r.vibeLateral = none) → latAlertMsg ∉ as) ∧
      ((∀ r ∈ s, r.adLimiting = none) → adlAlertMsg ∉ as) ∧
      ((∀ r ∈ s, r.wobReduce = none ∧ r.rpmReduce = none) →
        dasAlertMsg ∉ as) := by
  refine ⟨alertsOf s, by rw [evalRules, if_pos hm], ?_, ?_, ?_, ?_, ?_⟩
  · intro hall hmem
    rw [rop_mem_alertsOf, ropRolling_none hall] at hmem
    exact Bool.noConfusion hmem
  · intro hall hmem
    rw [stuck_mem_alertsOf, List.any_eq_true] at hmem
    obtain ⟨r, hr, hp⟩ := hmem
    simp [hlIssue, optGt, hall r hr] at hp
  · intro hall hmem
    rw [lat_mem_alertsOf, List.any_eq_true] at hmem
    obtain ⟨r, hr, hp⟩ := hmem
    simp [latIssue, optGt, hall r hr] at hp
  · intro hall hmem
    rw [adl_mem_alertsOf, List.any_eq_true] at hmem
    obtain ⟨r, hr, hp⟩ := hmem
    simp [adlIssue, optGt, hall r hr] at hp
  · intro hall hmem
    rw [das_mem_alertsOf, List.any_eq_true] at hmem
    obtain ⟨r, hr, hp⟩ := hmem
    obtain ⟨h1, h2⟩ := hall r hr
    simp [dasIssue, optGt, h1, h2] at hp

/-- Witness for C8: a single wholly-missing row. -/
theorem all_missing_column_no_alert_witness :
    ∃ as, evalRules [blankRecord 0] = Except.ok as ∧
      ((∀ r ∈ ([blankRecord 0] : List SensorRecord), r.rop = none) →
        ropAlertMsg ∉ as) ∧
      ((∀ r ∈ ([blankRecord 0] : List SensorRecord), r.hookLoad = none) →
        stuckAlertMsg ∉ as) ∧
      ((∀ r ∈ ([blankRecord 0] : List SensorRecord), r.vibeLateral = none) →
        latAlertMsg ∉ as) ∧
      ((∀ r ∈ ([blankRecord 0] : List SensorRecord), r.adLimiting = none) →
        adlAlertMsg ∉ as) ∧
      ((∀ r ∈ ([blankRecord 0] : List SensorRecord),
          r.wobReduce = none ∧ r.rpmReduce = none) →
        dasAlertMsg ∉ as) :=
  all_missing_column_no_alert [blankRecord 0] (by decide)

/-- C9: a successful run offers the PDF report exactly when at least one
alert fired; with an empty alert set no PDF is generated. -/
theorem pdf_only_with_alerts (api : String → Except String String)
    (load : Option (List (ℚ × ℚ) → Option (List ℤ))) (csv : RawCsv)
    (out : PipelineOutput) (h : runPipeline api load csv = Except.ok out) :
    out.pdf.isSome = true ↔ out.alerts ≠ [] := by
  obtain ⟨-, -, -, -, -, -, hpdf⟩ := runPipeline_ok h
  rw [hpdf]
  cases he : out.alerts.isEmpty with
  | true => simp [List.isEmpty_iff.mp he]
  | false => simp [List.isEmpty_eq_false.mp he]

/-- Witness for C9: the empty upload produces no alerts and no PDF. -/
theorem pdf_only_with_alerts_witness :
    outEmpty.pdf.isSome = true ↔ outEmpty.alerts ≠ [] :=
  pdf_only_with_alerts apiOk none csvEmpty outEmpty (by decide)

/-- C10: the recommendation list is the fixed five-string list, hence
non-empty, so every successful run takes the external-call branch of
`generate_summary`: the service is invoked (and on its failure the inline
error string is produced instead), never the canned empty-set branch. -/
theorem external_service_always_called (api : String → Except String String)
    (load : Option (List (ℚ × ℚ) → Option (List ℤ))) (csv : RawCsv)
    (out : PipelineOutput) (h : runPipeline api load csv = Except.ok out) :
    out.externalCalled = true ∧ recommendations.length = 5 ∧
      recommendations ≠ [] := by
  obtain ⟨-, -, hec, -, -, -, -⟩ := runPipeline_ok h
  refine ⟨?_, by decide, by decide⟩
  rw [hec]
  have hrec : (out.alerts.isEmpty && recommendations.isEmpty) = false := by
    rw [show recommendations.isEmpty = false from rfl, Bool.and_false]
  cases happ : api (buildPrompt out.alerts recommendations) with
  | ok c => simp [generate_summary, hrec, happ]
  | error e => simp [generate_summary, hrec, happ]

/-- Witness for C10: the empty upload still calls the service. -/
theorem external_service_always_called_witness :
    outEmpty.externalCalled = true ∧ recommendations.length = 5 ∧
      recommendations ≠ [] :=
  external_service_always_called apiOk none csvEmpty outEmpty (by decide)

/-- C8 counterexample: a three-row series whose every rule input column is
entirely missing but whose timestamp index is in mixed order — the battery
raises (from the rolling window) instead of degenerating to "no alert". -/
theorem all_missing_column_counterexample :
    (∀ r ∈ ([blankRecord 100, blankRecord 700, blankRecord 400] :
        List SensorRecord),
      r.rop = none ∧ r.hookLoad = none ∧ r.vibeLateral = none ∧
        r.adLimiting = none ∧ r.wobReduce = none ∧ r.rpmReduce = none) ∧
    evalRules [blankRecord 100, blankRecord 700, blankRecord 400]
      = Except.error PipelineError.nonMonotonicIndex := by decide
